import Mathlib

/-!
Verification model of the OBO core (`obo.py` of Bibliome/obo-utils).

The definitions below are a shallow embedding of the parts of `obo.py`
needed by the claims: the value grammar helpers (`unescape`,
`FREE_VALUE_PATTERN`), the output escaping of `TagSet._write_obo_triplet`,
the stanza registry with its pre-populated builtins, the tag handlers
`read_id` / `read_name` / `read_is_a` / `read_relationship`, the
reference-resolution pass, and the traversals `parents` / `children` /
`paths`.  Python exceptions are modelled with `Except PyError`; a Python
generator is modelled by the result of consuming it completely.
-/

deriving instance DecidableEq for Except

namespace Obo

/-- Python exceptions raised by the code under study.  `obo` is
`OBOException` (with its message), `typeErr` is a `TypeError` raised by a
call whose argument count does not match the callee signature, `attrErr`
is an `AttributeError` raised by reading an attribute that was never
assigned, `recursionErr` is the interpreter `RecursionError`, and `loop`
is the plain `Exception` raised by `Stanza.paths` (obo.py:821) carrying
the ids of the offending path. -/
inductive PyError where
  | obo (msg : String)
  | typeErr
  | attrErr
  | recursionErr
  | loop (path : List String)
deriving DecidableEq, Repr

/-- Worker of `unescape` (obo.py:189-207): the boolean is the `esc` flag.
After a backslash, `n`/`t`/`r` map to newline/tab/carriage-return and any
other character maps to itself; a backslash at the end of the input sets
`esc` and the loop then finishes, so the backslash is dropped. -/
def unescapeAux : Bool → List Char → List Char
  | _, [] => []
  | true, c :: r =>
    (if c = 'n' then '\n' else if c = 't' then '\t' else if c = 'r' then '\r' else c)
      :: unescapeAux false r
  | false, c :: r => if c = '\\' then unescapeAux true r else c :: unescapeAux false r

/-- Function `unescape` (obo.py:189-207). -/
def unescape (s : String) : String := String.mk (unescapeAux false s.data)

/-- Replace every occurrence of the character `c` by the string `rep`,
the behaviour of Python `str.replace` with a one-character pattern. -/
def replaceChar (c : Char) (rep : List Char) : List Char → List Char
  | [] => []
  | x :: r => (if x = c then rep else [x]) ++ replaceChar c rep r

/-- The escaping chain of `TagSet._write_obo_triplet` (obo.py:625), with
the eight `str.replace` calls applied in source order: newline, then
carriage-return, then tab, then backslash, then the four brackets.  Note
that the backslash replacement runs after the newline/tab replacements,
so it doubles the backslashes those replacements introduced. -/
def escapeChain (l : List Char) : List Char :=
  replaceChar '\x7d' ['\\', '\x7d']
    (replaceChar '\x7b' ['\\', '\x7b']
      (replaceChar ']' ['\\', ']']
        (replaceChar '[' ['\\', '[']
          (replaceChar '\\' ['\\', '\\']
            (replaceChar '\t' ['\\', 't']
              (replaceChar '\r' ['\\', 'n']
                (replaceChar '\n' ['\\', 'n'] l)))))))

/-- String form of `escapeChain`. -/
def escapeOBO (s : String) : String := String.mk (escapeChain s.data)

/-- The value argument of `_write_obo_triplet` after the `id`/`value`
attribute unwrapping (obo.py:615-618): `None`, a boolean, or a string. -/
inductive TagValue where
  | noneV
  | boolV (b : Bool)
  | strV (s : String)
deriving DecidableEq, Repr

/-- Output lines of `TagSet._write_obo_triplet` (obo.py:610-635) for one
value, with `comment`, `quote`, `scope` and `dbxrefs` at their defaults:
`None` and `False` produce no line, `True` is turned into the string
`true`, and string values go through the escaping chain. -/
def writeTripletLines (pred : String) : TagValue → List String
  | .noneV => []
  | .boolV false => []
  | .boolV true => [pred ++ ": " ++ escapeOBO "true"]
  | .strV v => [pred ++ ": " ++ escapeOBO v]

/-- Python `\s` on the ASCII range: the whitespace characters recognised
by the regular expressions of obo.py. -/
def isWs (c : Char) : Bool :=
  c = ' ' || c = '\t' || c = '\n' || c = '\r' || c = '\x0b' || c = '\x0c'

/-- Drop leading whitespace. -/
def dropWs : List Char → List Char
  | [] => []
  | c :: r => if isWs c then dropWs r else c :: r

/-- Acceptance of `TERMINAL_COMMENT` (obo.py:165): optional whitespace
then an optional `!`-comment reaching the end of the line. -/
def termCommentAccept (cs : List Char) : Bool :=
  match dropWs cs with
  | [] => true
  | '!' :: _ => true
  | _ => false

/-- Acceptance of the tail of `DBXREF_LIST` (obo.py:167) after the
opening bracket: the content `(?:[^\x5b\x5d]|\\.)*`, a closing bracket,
then `TERMINAL_COMMENT`.  Both alternatives of the content are tried, as
the backtracking engine does. -/
def dbxAfter : List Char → Bool
  | [] => false
  | ']' :: r => termCommentAccept r
  | '[' :: _ => false
  | '\\' :: [] => false
  | '\\' :: d :: r => dbxAfter (d :: r) || dbxAfter r
  | _ :: r => dbxAfter r

/-- Acceptance of what may follow the value group of
`FREE_VALUE_PATTERN` (obo.py:172): either directly `TERMINAL_COMMENT`,
or the optional dbxref list `\s+\[...\]` followed by `TERMINAL_COMMENT`. -/
def restAccept (cs : List Char) : Bool :=
  termCommentAccept cs ||
  (match cs with
   | c :: r =>
     isWs c &&
     (match dropWs r with
      | '[' :: r2 => dbxAfter r2
      | _ => false)
   | [] => false)

/-- Backtracking matcher for the value group
`(?P<value>(?:\\.|[^!\x5b\x5d])+)` of `FREE_VALUE_PATTERN` (obo.py:172):
`acc` holds the reversed characters consumed so far.  As the regex engine
does, it greedily tries to consume one more token (the `\\.` alternative
first, then the character class) and only then tries to stop the
repetition, which succeeds when at least one token was consumed and the
remaining input is accepted by `restAccept`.  The returned characters are
the captured value group of the first successful match. -/
def vGo (acc : List Char) : List Char → Option (List Char)
  | [] => if acc ≠ [] && restAccept [] then some acc.reverse else none
  | '\\' :: d :: r =>
    ((vGo (d :: '\\' :: acc) r).orElse (fun _ =>
      (vGo ('\\' :: acc) (d :: r)).orElse (fun _ =>
        if acc ≠ [] && restAccept ('\\' :: d :: r) then some acc.reverse else none)))
  | '\\' :: [] =>
    ((vGo ('\\' :: acc) []).orElse (fun _ =>
      if acc ≠ [] && restAccept ['\\'] then some acc.reverse else none))
  | c :: r =>
    if c = '!' || c = '[' || c = ']' then
      (if acc ≠ [] && restAccept (c :: r) then some acc.reverse else none)
    else
      ((vGo (c :: acc) r).orElse (fun _ =>
        if acc ≠ [] && restAccept (c :: r) then some acc.reverse else none))

/-- Python `str.strip`: drop whitespace at both ends. -/
def pyStrip (s : String) : String :=
  String.mk ((dropWs (dropWs s.data).reverse).reverse)

/-- Function `get_free_value` (obo.py:215-216): match `FREE_VALUE_PATTERN` against
the raw value (a failed match raises `OBOInvalidFormat`, modelled as
`none`), take the value group and strip it. -/
def getFreeValue (s : String) : Option String :=
  (vGo [] s.data).map (fun l => pyStrip (String.mk l))

/-- The concrete class of a registry entry: `Term`, `Typedef`, `Instance`
(obo.py:845-871), or one of the four `BuiltinStanza` marker stanzas
(obo.py:637-671). -/
inductive SKind where
  | term
  | typedefK
  | instanceK
  | marker
deriving DecidableEq, Repr

/-- Class `StanzaReference` (obo.py:542-557).  `rel` and `reference` are the
textual relation label and target id set at construction;
`rel_object` and `reference_object` are the attributes assigned by
`resolve_reference` (obo.py:559-568), `none` meaning the attribute was
never assigned.  Resolved stanzas and typedefs are represented by
their registry id, which identifies them uniquely. -/
structure SRef where
  rel : String
  reference : String
  rel_object : Option String := none
  reference_object : Option String := none
deriving DecidableEq, Repr

/-- A registry entry (`Stanza`, obo.py:682-703, plus the `Term` map
`intersection_of`, obo.py:845-848).  `references` models the
relation-label-to-reference-list ordered dictionary.  `fromBuiltinSource`
records whether the stanza was read from the `BUILTIN` document
(`source == <<builtin>>`).  Synonyms, subsets, xrefs and the other
single-valued attributes play no role in the claims below and every
modelled scenario leaves them empty, so they are not represented. -/
structure Stanza where
  id : String
  kind : SKind
  name : Option String := none
  references : List (String × List SRef) := []
  intersection_of : List (String × List SRef) := []
  is_obsolete : Bool := false
  fromBuiltinSource : Bool := false
deriving DecidableEq, Repr

/-- Lookup in the registry ordered dictionary `Ontology.stanzas`. -/
def findStanza (onto : List Stanza) (i : String) : Option Stanza :=
  onto.find? (fun s => s.id = i)

/-- In-place update of one registry entry; dictionary order is kept. -/
def updateStanza (onto : List Stanza) (i : String) (f : Stanza → Stanza) : List Stanza :=
  onto.map (fun s => if s.id = i then f s else s)

/-- The collection update of `StanzaReference.__init__` (obo.py:548-557):
append to the list of an existing relation key, or add the new key at the
end of the ordered dictionary. -/
def addRef (m : List (String × List SRef)) (rel : String) (r : SRef) :
    List (String × List SRef) :=
  if m.any (fun p => p.1 = rel) then
    m.map (fun p => if p.1 = rel then (p.1, p.2 ++ [r]) else p)
  else m ++ [(rel, [r])]

/-- Lookup of a relation key in a reference map. -/
def lookupRel (m : List (String × List SRef)) (rel : String) : Option (List SRef) :=
  (m.find? (fun p => p.1 = rel)).map (fun p => p.2)

/-- The `DanglingReferenceOption` classes (obo.py:874-909): raise, warn
on stderr, silently ignore, or warn then ignore. -/
inductive DangPolicy where
  | fail
  | warn
  | ignore
  | warnIgnore
deriving DecidableEq, Repr

/-- A three-argument call `option.handle(sourced, ref, msg)` on a
dangling-reference policy: `DanglingReferenceFail.handle` raises
`OBOException` (obo.py:885-886), the other policies write a warning or
nothing and return. -/
def handleDangling (p : DangPolicy) (refid : String) (msg : String) : Except PyError Unit :=
  match p with
  | .fail => .error (.obo (msg ++ refid))
  | .warn => .ok ()
  | .ignore => .ok ()
  | .warnIgnore => .ok ()

/-- Method `StanzaReference.resolve_reference` (obo.py:559-568): assign
`rel_object` when a relation-type object is supplied, then either assign
`reference_object` (applying the obsolete-reference policy when the
target is obsolete and the option is not `None`) or invoke the
dangling-reference policy with message `reference to unknown `. -/
def resolveReference (onto : List Stanza) (dang : DangPolicy) (obs : Option DangPolicy)
    (rtObj : Option String) (r : SRef) : Except PyError SRef :=
  let r1 := match rtObj with
    | some rt => { r with rel_object := some rt }
    | none => r
  match findStanza onto r1.reference with
  | some target =>
    let r2 := { r1 with reference_object := some target.id }
    match obs with
    | some p =>
      if target.is_obsolete then
        match handleDangling p r2.reference "reference to obsolete " with
        | .error e => .error e
        | .ok _ => .ok r2
      else .ok r2
    | none => .ok r2
  | none =>
    match handleDangling dang r1.reference "reference to unknown " with
    | .error e => .error e
    | .ok _ => .ok r1

/-- The inner loop of `Stanza._resolve_relation_references`
(obo.py:776-777) over the references sharing one relation label. -/
def resolveRefList (onto : List Stanza) (dang : DangPolicy) (obs : Option DangPolicy)
    (rt : String) : List SRef → Except PyError (List SRef)
  | [] => .ok []
  | r :: rest =>
    match resolveReference onto dang obs (some rt) r with
    | .error e => .error e
    | .ok r2 =>
      match resolveRefList onto dang obs rt rest with
      | .error e => .error e
      | .ok rest2 => .ok (r2 :: rest2)

/-- The outer loop of `Stanza._resolve_relation_references`
(obo.py:767-777) over the relation labels of a reference map.  When the
label is not in the registry, the code calls
`dangling_reference_option.handle(self, rt)` (obo.py:769) with two
arguments although `DanglingReferenceOption.handle` takes `(self,
sourced, ref, msg)`, so Python raises `TypeError` under every policy.
When the label resolves to a non-`Typedef` stanza, the code evaluates
`OBOException(...)` with a single argument (obo.py:774) although
`OBOException.__init__` takes `(self, sourced, msg)`, again a
`TypeError`. -/
def resolveRelGroups (onto : List Stanza) (dang : DangPolicy) (obs : Option DangPolicy) :
    List (String × List SRef) → Except PyError (List (String × List SRef))
  | [] => .ok []
  | (rt, refs) :: rest =>
    match findStanza onto rt with
    | none => .error .typeErr
    | some rtS =>
      if rtS.kind = .typedefK then
        match resolveRefList onto dang obs rt refs with
        | .error e => .error e
        | .ok refs2 =>
          match resolveRelGroups onto dang obs rest with
          | .error e => .error e
          | .ok rest2 => .ok ((rt, refs2) :: rest2)
      else .error .typeErr

/-- Method `resolve_references` of one registry entry: a no-op for the builtin
marker stanzas (obo.py:644-645); for the others the relation references
are resolved (obo.py:779-782), with the obsolete-reference option
replaced by `None` when the owner is itself obsolete (obo.py:765-766),
and a `Term` additionally resolves its `intersection_of` map
(obo.py:850-852).  The synonym, subset and definition resolutions touch
collections that are empty in every modelled scenario. -/
def stanzaResolve (onto : List Stanza) (dang obs : DangPolicy) (s : Stanza) :
    Except PyError Stanza :=
  match s.kind with
  | .marker => .ok s
  | .term =>
    let o : Option DangPolicy := if s.is_obsolete then none else some obs
    (match resolveRelGroups onto dang o s.references with
     | .error e => .error e
     | .ok refs2 =>
       match resolveRelGroups onto dang o s.intersection_of with
       | .error e => .error e
       | .ok ints2 => .ok { s with references := refs2, intersection_of := ints2 })
  | _ =>
    let o : Option DangPolicy := if s.is_obsolete then none else some obs
    (match resolveRelGroups onto dang o s.references with
     | .error e => .error e
     | .ok refs2 => .ok { s with references := refs2 })

/-- The loop of `Ontology.resolve_references` (obo.py:1066-1068) over the
registry in dictionary order; every stanza is resolved against the
current registry and written back in place. -/
def resolveSeq (dang obs : DangPolicy) : List String → List Stanza → Except PyError (List Stanza)
  | [], onto => .ok onto
  | i :: rest, onto =>
    match findStanza onto i with
    | none => resolveSeq dang obs rest onto
    | some s =>
      match stanzaResolve onto dang obs s with
      | .error e => .error e
      | .ok s2 => resolveSeq dang obs rest (updateStanza onto i (fun _ => s2))

/-- Method `Ontology.resolve_references` (obo.py:1066-1068). -/
def resolveReferencesAll (dang obs : DangPolicy) (onto : List Stanza) :
    Except PyError (List Stanza) :=
  resolveSeq dang obs (onto.map (fun s => s.id)) onto

/-- Consuming the generator `Stanza.parents` (obo.py:794-797) for the
references of one relation: each link yields `link.reference_object`,
which raises `AttributeError` when resolution never assigned it. -/
def refTargets : List SRef → Except PyError (List String)
  | [] => .ok []
  | r :: rest =>
    match r.reference_object with
    | none => .error .attrErr
    | some t =>
      match refTargets rest with
      | .error e => .error e
      | .ok ts => .ok (t :: ts)

/-- Generator `Stanza.parents(rel)` (obo.py:794-797), fully consumed: nothing when
the relation label has no key in `references`. -/
def parents (s : Stanza) (rel : String) : Except PyError (List String) :=
  match lookupRel s.references rel with
  | none => .ok []
  | some links => refTargets links

/-- The registry scan of `Stanza.children` (obo.py:799-806): builtin
marker stanzas are skipped, every other stanza is yielded when the query
id is among its `parents()` — called with no argument (obo.py:803), hence
always for the default relation `is_a`. -/
def childScan (selfId : String) : List Stanza → Except PyError (List String)
  | [] => .ok []
  | t :: rest =>
    if t.kind = .marker then childScan selfId rest
    else
      match parents t "is_a" with
      | .error e => .error e
      | .ok ps =>
        match childScan selfId rest with
        | .error e => .error e
        | .ok others => .ok (if selfId ∈ ps then t.id :: others else others)

/-- Generator `Stanza.children(rel)` (obo.py:799-806), fully consumed.  The `rel`
parameter is accepted but never used by the code: the scan calls
`stanza.parents()` with the default relation. -/
def children (onto : List Stanza) (s : Stanza) (_rel : String) : Except PyError (List String) :=
  childScan s.id onto

/-- The cycle check and append of `Stanza.paths` (obo.py:820-824) applied
to the paths produced for one parent: a parent path already containing
the current stanza raises the `loop` exception carrying the path followed
by the current id; otherwise the current id is appended when
`include_self` is set. -/
def pathsAppend (sid : String) (includeSelf : Bool) :
    List (List String) → Except PyError (List (List String))
  | [] => .ok []
  | p :: ps =>
    if sid ∈ p then .error (.loop (p ++ [sid]))
    else
      match pathsAppend sid includeSelf ps with
      | .error e => .error e
      | .ok rest => .ok ((if includeSelf then p ++ [sid] else p) :: rest)

/-- The loop of `Stanza.paths` (obo.py:818-824) over the links of the
chosen relation; `recur` is the recursive call on
`link.reference_object`, which raises `AttributeError` when the link was
never resolved. -/
def pathsLinksGen (recur : String → Except PyError (List (List String)))
    (sid : String) (includeSelf : Bool) : List SRef → Except PyError (List (List String))
  | [] => .ok []
  | r :: rest =>
    match r.reference_object with
    | none => .error .attrErr
    | some tid =>
      match recur tid with
      | .error e => .error e
      | .ok pps =>
        match pathsAppend sid includeSelf pps with
        | .error e => .error e
        | .ok mine =>
          match pathsLinksGen recur sid includeSelf rest with
          | .error e => .error e
          | .ok more => .ok (mine ++ more)

/-- Generator `Stanza.paths(rel, include_self)` (obo.py:816-828), fully consumed,
with an explicit bound on the recursion depth: Python bounds the same
recursion by the interpreter stack limit and raises `RecursionError` when
it is exceeded, modelled by fuel exhaustion.  A stanza without the
relation yields the singleton path of itself (or one empty path). -/
def pathsFuel (onto : List Stanza) : Nat → String → String → Bool →
    Except PyError (List (List String))
  | 0, _, _, _ => .error .recursionErr
  | fuel + 1, sid, rel, includeSelf =>
    match findStanza onto sid with
    | none => .error .attrErr
    | some s =>
      match lookupRel s.references rel with
      | some links =>
        pathsLinksGen (fun tid => pathsFuel onto fuel tid rel true) sid includeSelf links
      | none => if includeSelf then .ok [[sid]] else .ok [[]]

/-- The ids of the four `BuiltinStanza` marker stanzas, the keys of the
`Ontology.builtin` dictionary (obo.py:637-671, 1037-1040).  The eight
builtin relation typedefs are registered in `Ontology.stanzas` but not in
`Ontology.builtin`. -/
def builtinMarkerIds : List String :=
  ["OBO:TYPE", "OBO:INSTANCE", "OBO:TERM", "OBO:TERM_OR_TYPE"]

/-- One builtin relation typedef as produced by reading its `BUILTIN`
block (obo.py:960-1015): a `Typedef` with its own id as name and one
`range` and one `domain` reference, inserted in that order. -/
def builtinRelStanza (i rangeId domainId : String) : Stanza :=
  { id := i, kind := .typedefK, name := some i,
    references :=
      [("range", [{ rel := "range", reference := rangeId }]),
       ("domain", [{ rel := "domain", reference := domainId }])],
    fromBuiltinSource := true }

/-- One `BuiltinStanza` marker (obo.py:637-671). -/
def markerStanza (i : String) : Stanza := { id := i, kind := .marker }

/-- The registry right after `Ontology.__init__` (obo.py:1022-1040): the
eight builtin relation typedefs in `BUILTIN` document order, then the
four marker stanzas in construction order. -/
def initOntology : List Stanza :=
  [builtinRelStanza "is_a" "OBO:TERM_OR_TYPE" "OBO:TERM_OR_TYPE",
   builtinRelStanza "disjoint_from" "OBO:TERM" "OBO:TERM",
   builtinRelStanza "instance_of" "OBO:TERM" "OBO:INSTANCE",
   builtinRelStanza "inverse_of" "OBO:TYPE" "OBO:TYPE",
   builtinRelStanza "union_of" "OBO:TERM" "OBO:TERM",
   builtinRelStanza "intersection_of" "OBO:TERM" "OBO:TERM",
   builtinRelStanza "range" "OBO:TERM_OR_TYPE" "OBO:TYPE",
   builtinRelStanza "domain" "OBO:TERM_OR_TYPE" "OBO:TYPE",
   markerStanza "OBO:TYPE", markerStanza "OBO:INSTANCE",
   markerStanza "OBO:TERM", markerStanza "OBO:TERM_OR_TYPE"]

/-- State of `OntologyReader.read` between lines: the accumulating
registry, the stanza type of the active stanza reader, and its current
stanza (reset by every stanza header line, obo.py:944-947). -/
structure RState where
  onto : List Stanza
  curKind : SKind
  current : Option String
deriving DecidableEq, Repr

/-- The part of `StanzaReader.read_id` (obo.py:322-337) that runs after
`get_free_value`: a reserved id (a key of `Ontology.builtin`) raises; an
id already registered merges into the existing stanza when the kinds
agree and raises otherwise; a fresh id appends a new stanza of the
reader kind to the registry. -/
def readIdParsed (st : RState) (i : String) : Except PyError RState :=
  if i ∈ builtinMarkerIds then .error (.obo "this id is reserved")
  else
    match findStanza st.onto i with
    | some s =>
      if s.kind = st.curKind then .ok { st with current := some i }
      else .error (.obo "the same id is used for different types of stanzas")
    | none =>
      .ok { st with onto := st.onto ++ [{ id := i, kind := st.curKind }],
                    current := some i }

/-- Method `StanzaReader.read_id` (obo.py:322-337): a second `id` tag in the
same stanza block raises, then the value is parsed as a free value. -/
def readIdVal (st : RState) (value : String) : Except PyError RState :=
  if st.current.isSome then .error (.obo "duplicate tag id")
  else
    match getFreeValue value with
    | none => .error (.obo "invalid id format")
    | some i => readIdParsed st i

/-- Method `StanzaReader.read_name` (obo.py:339-345): the free value is
unescaped and stored; a duplicate name at most warns. -/
def readNameVal (st : RState) (value : String) : Except PyError RState :=
  match st.current with
  | none => .error (.obo "expected tag id")
  | some cid =>
    match getFreeValue value with
    | none => .error (.obo "invalid name format")
    | some nv =>
      .ok { st with
              onto := updateStanza st.onto cid (fun s => { s with name := some (unescape nv) }) }

/-- Method `StanzaReader._read_simple_ref` (obo.py:382-385), used by `read_is_a`
(obo.py:468-469): parse the free value and construct a `StanzaReference`
on the current stanza. -/
def readSimpleRefVal (st : RState) (tag rel : String) (value : String) : Except PyError RState :=
  match st.current with
  | none => .error (.obo "expected tag id")
  | some cid =>
    match getFreeValue value with
    | none => .error (.obo ("invalid " ++ tag ++ " format"))
    | some i =>
      .ok { st with
              onto := updateStanza st.onto cid (fun s =>
                { s with references := addRef s.references rel { rel := rel, reference := i } }) }

/-- Worker of `pyWords`: split on whitespace runs, the reversed current
word accumulated in `cur`. -/
def wordsAux : List Char → List Char → List String
  | cur, [] => if cur = [] then [] else [String.mk cur.reverse]
  | cur, c :: r =>
    if isWs c then
      (if cur = [] then wordsAux [] r else String.mk cur.reverse :: wordsAux [] r)
    else wordsAux (c :: cur) r

/-- Whitespace-separated words of a string. -/
def pyWords (s : String) : List String := wordsAux [] s.data

/-- Pattern `RELATIONSHIP_PATTERN` (obo.py:179) restricted to values made of two
whitespace-separated words containing no escapes, brackets or trailing
comments, the only shape the modelled documents use: relation label then
target id. -/
def relationshipParse (value : String) : Option (String × String) :=
  match pyWords value with
  | [a, b] => some (a, b)
  | _ => none

/-- Method `TermOrTypeReader.read_relationship` (obo.py:471-473). -/
def readRelationshipVal (st : RState) (value : String) : Except PyError RState :=
  match st.current with
  | none => .error (.obo "expected tag id")
  | some cid =>
    match relationshipParse value with
    | none => .error (.obo "invalid relationship format")
    | some (rel, i) =>
      .ok { st with
              onto := updateStanza st.onto cid (fun s =>
                { s with references := addRef s.references rel { rel := rel, reference := i } }) }

/-- One logical line handed to the active reader: a stanza header
`[Kind]` or a `tag: value` line already split and stripped by the line
scanner (obo.py:932-954). -/
inductive OboLine where
  | header (k : SKind)
  | tagLine (tag : String) (value : String)
deriving DecidableEq, Repr

/-- Method `StanzaReader.read` (obo.py:317-320) and the tag dispatch of
`TagReader.read` (obo.py:144-149) for the tags the modelled documents
use: a first tag other than `id` raises; `id`, `name`, `is_a` and
`relationship` go to their handlers.  Any other tag reaches
`default_read`, which warns and leaves the state unchanged. -/
def stanzaTagRead (st : RState) (tag value : String) : Except PyError RState :=
  if tag ≠ "id" ∧ st.current = none then .error (.obo "expected tag id")
  else if tag = "id" then readIdVal st value
  else if tag = "name" then readNameVal st value
  else if tag = "is_a" then readSimpleRefVal st "is_a" "is_a" value
  else if tag = "relationship" then readRelationshipVal st value
  else .ok st

/-- Effect of one line on the reader state: a header switches the active
reader and resets its current stanza (obo.py:939-948). -/
def readLine (st : RState) : OboLine → Except PyError RState
  | .header k => .ok { st with curKind := k, current := none }
  | .tagLine t v => stanzaTagRead st t v

/-- The line loop of `OntologyReader.read` (obo.py:924-954). -/
def readDoc : RState → List OboLine → Except PyError RState
  | st, [] => .ok st
  | st, l :: rest =>
    match readLine st l with
    | .error e => .error e
    | .ok st2 => readDoc st2 rest

/-- Reader state at the start of a document: the freshly initialised
registry and no current stanza. -/
def initRState : RState := { onto := initOntology, curKind := .term, current := none }

/-- Load a document into a fresh ontology and run
`Ontology.resolve_references` with the given dangling and obsolete
policies. -/
def loadResolve (dang obs : DangPolicy) (doc : List OboLine) : Except PyError (List Stanza) :=
  match readDoc initRState doc with
  | .error e => .error e
  | .ok st => resolveReferencesAll dang obs st.onto

/-- The `UnhandledTagOption` classes (obo.py:48-102). -/
inductive UnhandledTagOpt where
  | fail
  | warn
  | record
  | warnAndRecord
  | ignore
deriving DecidableEq, Repr

/-- Observable effect of `UnhandledTagOption.handle` for each policy
class (obo.py:62-102): `UnhandledTagFail` raises, `UnhandledTagWarn`
warns, `UnhandledTagRecord` appends the pair to the unhandled-tag list of
the target, the combined class does both, `UnhandledTagIgnore` does
nothing. -/
structure PolicyEffect where
  raises : Bool
  warns : Bool
  appended : List (String × String)
deriving DecidableEq, Repr

/-- Effects of `UnhandledTagOption.handle` per class (obo.py:62-102). -/
def unhandledEffect (o : UnhandledTagOpt) (tag value : String) : PolicyEffect :=
  match o with
  | .fail => { raises := true, warns := false, appended := [] }
  | .warn => { raises := false, warns := true, appended := [] }
  | .record => { raises := false, warns := false, appended := [(tag, value)] }
  | .warnAndRecord => { raises := false, warns := true, appended := [(tag, value)] }
  | .ignore => { raises := false, warns := false, appended := [] }

/-- The handler method name computed by `TagReader.read` (obo.py:145):
`read_` plus the tag with dashes replaced by underscores. -/
def tagMethodName (tag : String) : String :=
  "read_" ++ String.mk (tag.data.map (fun c => if c = '-' then '_' else c))

/-- The `read_` methods reachable on a `TermReader` through its class
hierarchy (obo.py:310-501). -/
def termReaderMethods : List String :=
  ["read_id", "read_name", "read_def", "read_is_anonymous", "read_alt_id",
   "read_comment", "read_xref", "read_is_obsolete", "read_replaced_by",
   "read_namespace", "read_consider", "read_synonym", "read_subset",
   "read_exact_synonym", "read_narrow_synonym", "read_related_synonym",
   "read_broad_synonym", "read_xref_analog", "read_xref_unk", "read_is_a",
   "read_relationship", "read_use_term", "read_created_by",
   "read_creation_date", "read_union_of", "read_disjoint_from",
   "read_intersection_of"]

/-- Where `TagReader.read` (obo.py:144-149) sends a tag. -/
inductive DispatchOutcome where
  | handler (m : String)
  | defaultWarned
deriving DecidableEq, Repr

/-- Method `TagReader.read` (obo.py:144-152): when the instance has a method
named `read_<tag>` it is invoked, otherwise `default_read` prints a
warning and returns.  The stored unhandled-tag policy object is not
consulted on either branch. -/
def tagReaderDispatch (methods : List String) (_opt : UnhandledTagOpt) (tag : String) :
    DispatchOutcome :=
  if tagMethodName tag ∈ methods then .handler (tagMethodName tag) else .defaultWarned

/-- The two-Term document of claim C1: `A:1` named Alpha, `A:2` named
Beta with `is_a: A:1`. -/
def docC1 : List OboLine :=
  [.header .term, .tagLine "id" "A:1", .tagLine "name" "Alpha",
   .header .term, .tagLine "id" "A:2", .tagLine "name" "Beta", .tagLine "is_a" "A:1"]

/-- The registry after loading `docC1` and resolving references with the
policies of the module main block. -/
def ontologyC1 : List Stanza := (loadResolve .fail .warn docC1).toOption.getD []

/-- The document of claim C4: one Term with a dangling `is_a: Z:9`. -/
def docC4 : List OboLine :=
  [.header .term, .tagLine "id" "A:1", .tagLine "name" "Alpha", .tagLine "is_a" "Z:9"]

/-- The registry after loading `docC4` and resolving under the warn
dangling-reference policy. -/
def ontologyC4 : List Stanza := (loadResolve .warn .warn docC4).toOption.getD []

/-- The document of claim C5: a Term with `relationship: foo B:1` where
the relation label `foo` is declared nowhere; the target `B:1` exists. -/
def docC5 : List OboLine :=
  [.header .term, .tagLine "id" "A:1", .tagLine "name" "Alpha",
   .tagLine "relationship" "foo B:1",
   .header .term, .tagLine "id" "B:1", .tagLine "name" "Beta"]

/-- The document of claim C6: two Terms forming the pure `is_a` cycle
A to B to A. -/
def docC6 : List OboLine :=
  [.header .term, .tagLine "id" "A", .tagLine "name" "a", .tagLine "is_a" "B",
   .header .term, .tagLine "id" "B", .tagLine "name" "b", .tagLine "is_a" "A"]

/-- The registry after loading and resolving `docC6`. -/
def ontologyC6 : List Stanza := (loadResolve .fail .warn docC6).toOption.getD []

/-- The document of claim C7: a user-declared Typedef `part_of` and two
Terms with `A:1 part_of B:1`. -/
def docC7 : List OboLine :=
  [.header .typedefK, .tagLine "id" "part_of", .tagLine "name" "part of",
   .header .term, .tagLine "id" "A:1", .tagLine "name" "a",
   .tagLine "relationship" "part_of B:1",
   .header .term, .tagLine "id" "B:1", .tagLine "name" "b"]

/-- The registry after loading and resolving `docC7`. -/
def ontologyC7 : List Stanza := (loadResolve .fail .warn docC7).toOption.getD []

/-- Reader state of a `[Typedef]` block over a freshly initialised
ontology, as used by claim C10. -/
def typedefRState : RState := { onto := initOntology, curKind := .typedefK, current := none }

/-- A link list of one resolved reference whose recursive paths call
fails makes `pathsLinksGen` fail with the same error. -/
theorem pathsLinksGen_err_single {recur : String → Except PyError (List (List String))}
    {sid : String} {inc : Bool} {r : SRef} {tid : String} {e : PyError}
    (h1 : r.reference_object = some tid) (h2 : recur tid = .error e) :
    pathsLinksGen recur sid inc [r] = .error e := by
  simp [pathsLinksGen, h1, h2]

/-- One unfolding of `pathsFuel` at the cycle stanza A of `ontologyC6`. -/
theorem c6_step_A (n : Nat) :
    pathsFuel ontologyC6 (n + 1) "A" "is_a" true =
      pathsLinksGen (fun tid => pathsFuel ontologyC6 n tid "is_a" true) "A" true
        [{ rel := "is_a", reference := "B", rel_object := some "is_a",
           reference_object := some "B" }] := rfl

/-- One unfolding of `pathsFuel` at the cycle stanza B of `ontologyC6`. -/
theorem c6_step_B (n : Nat) :
    pathsFuel ontologyC6 (n + 1) "B" "is_a" true =
      pathsLinksGen (fun tid => pathsFuel ontologyC6 n tid "is_a" true) "B" true
        [{ rel := "is_a", reference := "A", rel_object := some "is_a",
           reference_object := some "A" }] := rfl

/-- Claim C1: in the document defining Term A:1 (Alpha) and Term A:2
(Beta, `is_a: A:1`), after loading and reference resolution,
`A:2.parents()` yields exactly the stanza A:1, `A:1.children()` yields
exactly the stanza A:2, and `A:2.paths(is_a, include_self=True)` yields
exactly the single root-first path A:1, A:2 for every sufficient
recursion budget. -/
theorem claim_C1 :
    loadResolve .fail .warn docC1 = .ok ontologyC1
    ∧ (findStanza ontologyC1 "A:2").map (fun s => parents s "is_a") = some (.ok ["A:1"])
    ∧ (findStanza ontologyC1 "A:1").map (fun s => children ontologyC1 s "is_a")
        = some (.ok ["A:2"])
    ∧ ∀ n : Nat, pathsFuel ontologyC1 (n + 2) "A:2" "is_a" true = .ok [["A:1", "A:2"]] :=
  ⟨by decide, by decide, by decide, fun n => rfl⟩

/-- Claim C2 (code bug): the round trip parse-serialize-parse is not the
identity on the model.  A Term name holding a newline character
serializes, through the escaping chain of `_write_obo_triplet`, to the
three characters backslash-backslash-n, because the backslash doubling
runs after the newline replacement; parsing that line again yields the
two literal characters backslash-n instead of the original newline. -/
theorem claim_C2 :
    writeTripletLines "name" (.strV "a\nb") = ["name: a\\\\nb"]
    ∧ getFreeValue "a\\\\nb" = some "a\\\\nb"
    ∧ unescape "a\\\\nb" = "a\\nb"
    ∧ ("a\\nb" : String) ≠ "a\nb" := by decide

/-- Claim C3 (code bug): `TagReader.read` sends every unrecognized tag to
`default_read`, which warns and continues, whatever unhandled-tag policy
object was configured; the policy `handle` methods, whose effects are
`unhandledEffect` (fail raises, record appends the pair), are never
invoked on this path. -/
theorem claim_C3 :
    (∀ o : UnhandledTagOpt,
      tagReaderDispatch termReaderMethods o "obsolete_comment" = .defaultWarned)
    ∧ (unhandledEffect .fail "obsolete_comment" "v").raises = true
    ∧ (unhandledEffect .record "obsolete_comment" "v").appended = [("obsolete_comment", "v")] :=
  ⟨fun _ => rfl, rfl, rfl⟩

/-- Claim C4 counterexample: in the ontology of `docC4` resolved under
the warn dangling-reference policy, consuming `A:1.parents()` raises
`AttributeError` at the dangling edge; it does not yield the empty
parent list the claim describes. -/
theorem claim_C4_counterexample :
    (findStanza ontologyC4 "A:1").map (fun s => parents s "is_a") = some (.error .attrErr)
    ∧ (findStanza ontologyC4 "A:1").map (fun s => parents s "is_a")
        ≠ some (.ok ([] : List String)) := by decide

/-- Claim C4 as amended: with a dangling `is_a: Z:9`, resolution raises
under the fail policy and completes under the warn policy, but
consuming `A:1.parents()` afterwards raises `AttributeError` when it
reaches the unresolved edge (the edge is not silently skipped). -/
theorem claim_C4_amended :
    loadResolve .fail .warn docC4 = .error (.obo "reference to unknown Z:9")
    ∧ loadResolve .warn .warn docC4 = .ok ontologyC4
    ∧ (findStanza ontologyC4 "A:1").map (fun s => parents s "is_a")
        = some (.error .attrErr) := by decide

/-- Claim C5 (code bug): for a reference whose relation label is neither
a declared Typedef nor a builtin, `resolve_references` raises under the
fail policy and under the warn policy alike, because
`_resolve_relation_references` calls the dangling handler with two
arguments where its signature takes four, a `TypeError` before any
policy behaviour can apply; the warn run does not complete. -/
theorem claim_C5 :
    loadResolve .fail .warn docC5 = .error .typeErr
    ∧ loadResolve .warn .warn docC5 = .error .typeErr := by decide

/-- Claim C6 (code bug): on the pure two-cycle A to B to A, `paths`
exhausts every recursion budget and ends with `RecursionError`; the
loop-detection branch never fires, so no cycle error naming A and B is
reported. -/
theorem claim_C6 :
    loadResolve .fail .warn docC6 = .ok ontologyC6
    ∧ ∀ n : Nat,
        pathsFuel ontologyC6 n "A" "is_a" true = .error .recursionErr
        ∧ pathsFuel ontologyC6 n "B" "is_a" true = .error .recursionErr := by
  refine ⟨by decide, fun n => ?_⟩
  induction n with
  | zero => exact ⟨rfl, rfl⟩
  | succ m ih =>
    refine ⟨?_, ?_⟩
    · rw [c6_step_A]
      exact pathsLinksGen_err_single rfl ih.2
    · rw [c6_step_B]
      exact pathsLinksGen_err_single rfl ih.1

/-- Claim C7 (code bug): in the ontology of `docC7`, `A:1` has `B:1`
among its `parents("part_of")`, yet `B:1.children("part_of")` yields
nothing, because `children` ignores the relation it was given and scans
`parents()` for the default relation. -/
theorem claim_C7 :
    loadResolve .fail .warn docC7 = .ok ontologyC7
    ∧ (findStanza ontologyC7 "A:1").map (fun s => parents s "part_of") = some (.ok ["B:1"])
    ∧ (findStanza ontologyC7 "B:1").map (fun s => children ontologyC7 s "part_of")
        = some (.ok ([] : List String)) := by decide

/-- Claim C8 (code bug): on output, backslash and the four brackets are
backslash-escaped and booleans behave as claimed (true emitted, false
omitted), but a newline or tab in the value becomes the THREE character
sequence backslash-backslash-n (or -t), not the claimed two-character
one, because the backslash doubling of obo.py:625 runs after the
newline and tab replacements. -/
theorem claim_C8 :
    writeTripletLines "comment" (.strV "x\ny") = ["comment: x\\\\ny"]
    ∧ writeTripletLines "comment" (.strV "x\ty") = ["comment: x\\\\ty"]
    ∧ escapeOBO "\\" = "\\\\"
    ∧ escapeOBO "[" = "\\["
    ∧ escapeOBO "\x7b" = "\\\x7b"
    ∧ writeTripletLines "is_obsolete" (.boolV true) = ["is_obsolete: true"]
    ∧ writeTripletLines "is_obsolete" (.boolV false) = [] := by decide

/-- Claim C9 counterexample: a free value ending in an unescaped
backslash is accepted by `FREE_VALUE_PATTERN` and `unescape` silently
drops the backslash; no format error is raised. -/
theorem claim_C9_counterexample :
    getFreeValue "a\\" = some "a\\" ∧ unescape "a\\" = "a" := by decide

/-- Claim C9 as amended: unescaping maps backslash-n, backslash-t and
backslash-r to newline, tab and carriage-return, maps backslash followed
by any other character to that character, and keeps plain characters;
a trailing unescaped backslash is accepted and silently dropped rather
than rejected as a format error. -/
theorem claim_C9_amended :
    (∀ cs : List Char, unescapeAux false ('\\' :: 'n' :: cs) = '\n' :: unescapeAux false cs)
    ∧ (∀ cs : List Char, unescapeAux false ('\\' :: 't' :: cs) = '\t' :: unescapeAux false cs)
    ∧ (∀ cs : List Char, unescapeAux false ('\\' :: 'r' :: cs) = '\r' :: unescapeAux false cs)
    ∧ (∀ (c : Char) (cs : List Char), c ≠ 'n' → c ≠ 't' → c ≠ 'r' →
        unescapeAux false ('\\' :: c :: cs) = c :: unescapeAux false cs)
    ∧ (∀ (c : Char) (cs : List Char), c ≠ '\\' →
        unescapeAux false (c :: cs) = c :: unescapeAux false cs)
    ∧ unescapeAux false ['\\'] = []
    ∧ getFreeValue "a\\" = some "a\\" := by
  refine ⟨fun cs => rfl, fun cs => rfl, fun cs => rfl, ?_, ?_, rfl, by decide⟩
  · intro c cs h1 h2 h3
    simp [unescapeAux, h1, h2, h3]
  · intro c cs h
    simp [unescapeAux, h]

/-- Witness for the amended claim C9 at a concrete escaped character. -/
theorem claim_C9_witness : unescapeAux false ['\\', 'x', 'q'] = ['x', 'q'] := by
  have h := claim_C9_amended.2.2.2.1 'x' ['q'] (by decide) (by decide) (by decide)
  rw [h]
  decide

/-- Claim C10: over a freshly initialised ontology, the reserved-id check
of `read_id` rejects exactly the four builtin marker ids, and a document
`[Typedef]` stanza with id `is_a` is accepted and merges into the
pre-populated builtin Typedef (the registry is unchanged and the current
stanza becomes the existing `is_a`, which is a Typedef read from the
builtin source). -/
theorem claim_C10 :
    (∀ i : String,
      readIdParsed typedefRState i = .error (.obo "this id is reserved") ↔ i ∈ builtinMarkerIds)
    ∧ readIdParsed typedefRState "is_a" = .ok { typedefRState with current := some "is_a" }
    ∧ (findStanza initOntology "is_a").map (fun s => (s.kind, s.fromBuiltinSource))
        = some (.typedefK, true) := by
  refine ⟨fun i => ?_, by decide, by decide⟩
  by_cases h : i ∈ builtinMarkerIds
  · simp [readIdParsed, h]
  · unfold readIdParsed
    rw [if_neg h]
    constructor
    · intro hc
      exfalso
      revert hc
      cases findStanza typedefRState.onto i with
      | none => simp
      | some s =>
        by_cases hk : s.kind = typedefRState.curKind
        · simp [hk]
        · simp only [if_neg hk]
          intro hc
          have h3 : ("the same id is used for different types of stanzas" : String)
              = "this id is reserved" := by
            injection hc with h4
            injection h4
          exact absurd h3 (by decide)
    · intro hm
      exact absurd hm h

end Obo
